import Mathlib

/-!
Shallow embedding of the Premier League prediction engine
(src/lib/prediction-engine.ts, src/lib/database.ts, src/lib/api-football.ts).

Conventions of the embedding:
- JavaScript numbers are modelled as exact rationals `ℚ` (counts as `ℤ`);
  JavaScript `x / 0` yields `NaN` or `Infinity`, while `ℚ` yields `0` —
  every place where this matters is flagged at the definition.
- `Math.exp` is transcendental, so the sigmoid `x ↦ 1/(1+exp(-x))` used in
  `calculateMLProbability` is abstracted as a function parameter
  `sig : ℚ → ℚ`; the real sigmoid satisfies `0 < sig x < 1` for every `x`,
  which is the only property theorems assume about it.
- Asynchronous database / API calls that can reject are modelled as
  `Except Unit _` inputs: `.error ()` is a rejected promise, `.ok v` a
  resolved one.  A `try`/`catch` in the source becomes a `match` on that
  `Except` value.
-/

/-- Team record (src/types/index.ts `Team`); only the fields the engine
reads are kept. -/
structure Team where
  id : ℤ
  name : String
  deriving DecidableEq, Repr

/-- The `goals` sub-object of a fixture: `number | null` per side. -/
structure GoalsRec where
  home : Option ℤ
  away : Option ℤ
  deriving DecidableEq, Repr

/-- The `status` sub-object of a fixture; the engine only reads `short`. -/
structure StatusRec where
  short : String
  deriving DecidableEq, Repr

/-- The `teams` sub-object of a fixture. -/
structure TeamsRec where
  home : Team
  away : Team
  deriving DecidableEq, Repr

/-- Fixture record (src/types/index.ts `Fixture`); `date` is kept as an
integer timestamp since the code only compares dates. -/
structure Fixture where
  id : ℤ
  date : ℤ
  status : StatusRec
  teams : TeamsRec
  goals : GoalsRec
  deriving DecidableEq, Repr

/-- Season statistics record (src/types/index.ts `TeamStatistics`);
numeric fields only, the `form` string and timestamps are never read by
the analyzer. -/
structure TeamStatistics where
  team_id : ℤ
  season : ℤ
  played : ℤ
  wins : ℤ
  draws : ℤ
  losses : ℤ
  goals_for : ℤ
  goals_against : ℤ
  goal_difference : ℤ
  points : ℤ
  home_wins : ℤ
  home_draws : ℤ
  home_losses : ℤ
  away_wins : ℤ
  away_draws : ℤ
  away_losses : ℤ
  clean_sheets : ℤ
  failed_to_score : ℤ
  deriving DecidableEq, Repr

/-- `FormAnalysis` (prediction-engine.ts). -/
structure FormAnalysis where
  wins : ℤ
  draws : ℤ
  losses : ℤ
  goalsFor : ℤ
  goalsAgainst : ℤ
  points : ℤ
  formScore : ℚ
  deriving DecidableEq, Repr

/-- `StatisticalAnalysis` (prediction-engine.ts). -/
structure StatisticalAnalysis where
  homeAdvantage : ℚ
  goalDifferential : ℚ
  cleanSheetRatio : ℚ
  scoringConsistency : ℚ
  defensiveStrength : ℚ
  attackingStrength : ℚ
  deriving DecidableEq, Repr

/-- Prediction outcome enum `HOME_WIN | DRAW | AWAY_WIN`. -/
inductive Outcome where
  | HOME_WIN
  | DRAW
  | AWAY_WIN
  deriving DecidableEq, Repr

/-- `PredictionFactors` (src/types). -/
structure PredictionFactors where
  homeFormScore : ℚ
  awayFormScore : ℚ
  headToHeadScore : ℚ
  homeAdvantage : ℚ
  goalDifferenceFactor : ℚ
  deriving DecidableEq, Repr

/-- `PredictionResult`: outcome, rounded (integer) confidence, factors. -/
structure PredictionResult where
  prediction : Outcome
  confidence : ℤ
  factors : PredictionFactors
  deriving DecidableEq, Repr

/-- `MatchContext` (prediction-engine.ts). -/
structure MatchContext where
  homeTeam : Team
  awayTeam : Team
  fixture : Fixture
  homeForm : FormAnalysis
  awayForm : FormAnalysis
  homeStats : StatisticalAnalysis
  awayStats : StatisticalAnalysis
  headToHeadRecord : List Fixture
  homeAdvantage : ℚ
  deriving DecidableEq, Repr

/-- `PredictionEngine.HOME_ADVANTAGE_FACTOR = 0.15`. -/
def HOME_ADVANTAGE_FACTOR : ℚ := 15 / 100

/-- `PredictionEngine.FORM_WEIGHT = 0.4`. -/
def FORM_WEIGHT : ℚ := 4 / 10

/-- `PredictionEngine.STATS_WEIGHT = 0.35`. -/
def STATS_WEIGHT : ℚ := 35 / 100

/-- JavaScript `Math.round` on the values the engine produces:
round-half-up, `⌊x + 1/2⌋`. -/
def roundJS (x : ℚ) : ℤ := Int.floor (x + 1 / 2)

/-- The completed-match test `fixture.status.short === "FT"` used by the
database view functions. -/
def isCompleted (f : Fixture) : Bool := f.status.short == "FT"

/-- `fixture.teams.home.id === teamId || fixture.teams.away.id === teamId`. -/
def involvesTeam (teamId : ℤ) (f : Fixture) : Bool :=
  f.teams.home.id == teamId || f.teams.away.id == teamId

/-- The descending-date comparison `(a, b) => new Date(b.date) - new Date(a.date)`
used by `Array.prototype.sort` in database.ts, as a `Bool` order. -/
def byDateDesc (a b : Fixture) : Bool := b.date ≤ a.date

/-- `Database.getTeamRecentForm(teamId, matches)` (database.ts): completed
fixtures involving the team, newest first, truncated to `matches`. -/
def getTeamRecentForm (teamId : ℤ) (matchCount : ℕ) (db : List Fixture) : List Fixture :=
  ((db.filter fun f => involvesTeam teamId f && isCompleted f).mergeSort byDateDesc).take matchCount

/-- The head-to-head pairing test in `Database.getHeadToHeadRecords`. -/
def isH2H (team1Id team2Id : ℤ) (f : Fixture) : Bool :=
  (f.teams.home.id == team1Id && f.teams.away.id == team2Id) ||
  (f.teams.home.id == team2Id && f.teams.away.id == team1Id)

/-- `Database.getHeadToHeadRecords(team1Id, team2Id, limit)` (database.ts):
completed fixtures between the two teams (either home), newest first,
truncated to `limit`. -/
def getHeadToHeadRecords (team1Id team2Id : ℤ) (limit : ℕ) (db : List Fixture) : List Fixture :=
  ((db.filter fun f => isH2H team1Id team2Id f && isCompleted f).mergeSort byDateDesc).take limit

/-- `(teamGoals, opponentGoals)` attribution for one match, as in the loops
of `analyzeTeamForm` and `analyzeHeadToHead`:
`isHome = match.teams.home.id === teamId`, null goals default to 0. -/
def teamGoalsIn (teamId : ℤ) (m : Fixture) : ℤ × ℤ :=
  if m.teams.home.id = teamId then (m.goals.home.getD 0, m.goals.away.getD 0)
  else (m.goals.away.getD 0, m.goals.home.getD 0)

/-- Accumulator of the `for` loop in `analyzeTeamForm`. -/
structure FormAcc where
  wins : ℤ
  draws : ℤ
  losses : ℤ
  goalsFor : ℤ
  goalsAgainst : ℤ
  deriving DecidableEq, Repr

/-- One iteration of the `analyzeTeamForm` loop: classify the match as
win / draw / loss for `teamId` and accumulate goals. -/
def formFold (teamId : ℤ) (acc : FormAcc) (m : Fixture) : FormAcc :=
  let tg := (teamGoalsIn teamId m).1
  let og := (teamGoalsIn teamId m).2
  { wins := acc.wins + (if og < tg then 1 else 0)
    draws := acc.draws + (if tg = og then 1 else 0)
    losses := acc.losses + (if tg < og then 1 else 0)
    goalsFor := acc.goalsFor + tg
    goalsAgainst := acc.goalsAgainst + og }

/-- The neutral form returned by the `catch` branch of `analyzeTeamForm`
(every count 0, `formScore = 50`). -/
def neutralForm : FormAnalysis :=
  { wins := 0, draws := 0, losses := 0, goalsFor := 0, goalsAgainst := 0,
    points := 0, formScore := 50 }

/-- `PredictionEngine.analyzeTeamForm(teamId, matches = 5)`:
(the source parameter `matches` is `matchCount` here, a reserved word in Lean); `recent` is the settled promise of `Database.getTeamRecentForm`; a rejected
promise is caught and mapped to `neutralForm`.  Note `formScore` divides by
`matches * 3` (the parameter), not by the number of matches actually found. -/
def analyzeTeamForm (teamId : ℤ) (matchCount : ℕ) (recent : Except Unit (List Fixture)) :
    FormAnalysis :=
  match recent with
  | Except.error _ => neutralForm
  | Except.ok ms =>
    let a := ms.foldl (formFold teamId) ⟨0, 0, 0, 0, 0⟩
    let points := a.wins * 3 + a.draws
    let maxPoints : ℚ := (matchCount : ℚ) * 3
    { wins := a.wins, draws := a.draws, losses := a.losses,
      goalsFor := a.goalsFor, goalsAgainst := a.goalsAgainst,
      points := points,
      formScore := ((points : ℚ) / maxPoints) * 100 }

/-- `getCurrentSeason()` (api-football.ts): season year derived from the
current date; August or later starts a new season. -/
def getCurrentSeason (year month : ℤ) : ℤ :=
  if 8 ≤ month then year else year - 1

/-- `getAnalysisSeasons()` (api-football.ts): the fixed (season, weight)
configuration 0.5 / 0.3 / 0.2. -/
def getAnalysisSeasons (currentSeason : ℤ) : List (ℤ × ℚ) :=
  [(currentSeason, 1 / 2), (currentSeason - 1, 3 / 10), (currentSeason - 2, 1 / 5)]

/-- Per-season `homeAdvantage`:
`((homeWins*3 + homeDraws) / ((homeWins + homeDraws + homeLosses) * 3)) * 100`.
When the denominator is 0 (a qualifying record with an all-zero home split)
JavaScript produces `NaN`; in `ℚ` the quotient is 0. -/
def seasonHomeAdvantage (s : TeamStatistics) : ℚ :=
  (((s.home_wins : ℚ) * 3 + (s.home_draws : ℚ)) /
    (((s.home_wins : ℚ) + (s.home_draws : ℚ) + (s.home_losses : ℚ)) * 3)) * 100

/-- Denominator of the per-season `homeAdvantage` quotient. -/
def homeDenom (s : TeamStatistics) : ℚ :=
  (((s.home_wins : ℚ) + (s.home_draws : ℚ) + (s.home_losses : ℚ)) * 3)

/-- Per-season `cleanSheetRatio = (cleanSheets / totalMatches) * 100`. -/
def seasonCleanSheetRatio (s : TeamStatistics) : ℚ :=
  ((s.clean_sheets : ℚ) / (s.played : ℚ)) * 100

/-- Per-season `scoringConsistency = ((played - failedToScore) / played) * 100`. -/
def seasonScoringConsistency (s : TeamStatistics) : ℚ :=
  (((s.played : ℚ) - (s.failed_to_score : ℚ)) / (s.played : ℚ)) * 100

/-- Per-season `defensiveStrength = Math.max(0, 100 - goalsConcededPerMatch * 25)`. -/
def seasonDefensiveStrength (s : TeamStatistics) : ℚ :=
  max 0 (100 - ((s.goals_against : ℚ) / (s.played : ℚ)) * 25)

/-- Per-season `attackingStrength = Math.min(100, goalsScoredPerMatch * 40)`. -/
def seasonAttackingStrength (s : TeamStatistics) : ℚ :=
  min 100 (((s.goals_for : ℚ) / (s.played : ℚ)) * 40)

/-- One settled per-season lookup of `analyzeTeamStatistics`:
`Database.getTeamStatistics` may reject (inner `catch`, entry skipped),
resolve to `null` (entry skipped), or resolve to a record; the season weight
rides along. -/
abbrev SeasonFetch := Except Unit (Option TeamStatistics) × ℚ

/-- `multiSeasonData`: the per-season lookups that resolved to a record,
paired with their weights (rejected or `null` lookups are dropped, exactly
as the inner `try`/`if (stats)` of the source do). -/
def fetchedSeasons (data : List SeasonFetch) : List (TeamStatistics × ℚ) :=
  data.filterMap fun p =>
    match p.1 with
    | Except.ok (some s) => some (s, p.2)
    | _ => none

/-- The all-zero accumulator `weightedStats` starts from. -/
def zeroStats : StatisticalAnalysis :=
  { homeAdvantage := 0, goalDifferential := 0, cleanSheetRatio := 0,
    scoringConsistency := 0, defensiveStrength := 0, attackingStrength := 0 }

/-- One iteration of the `analyzeTeamStatistics` loop: a record qualifies
when `played > 0`; its six per-season metrics are added weight-scaled and
its weight is added to `totalWeight`; otherwise the entry is skipped. -/
def statsFold (acc : StatisticalAnalysis × ℚ) (e : TeamStatistics × ℚ) :
    StatisticalAnalysis × ℚ :=
  if 0 < e.1.played then
    ({ homeAdvantage := acc.1.homeAdvantage + seasonHomeAdvantage e.1 * e.2
       goalDifferential := acc.1.goalDifferential + (e.1.goal_difference : ℚ) * e.2
       cleanSheetRatio := acc.1.cleanSheetRatio + seasonCleanSheetRatio e.1 * e.2
       scoringConsistency := acc.1.scoringConsistency + seasonScoringConsistency e.1 * e.2
       defensiveStrength := acc.1.defensiveStrength + seasonDefensiveStrength e.1 * e.2
       attackingStrength := acc.1.attackingStrength + seasonAttackingStrength e.1 * e.2 },
     acc.2 + e.2)
  else acc

/-- The neutral `StatisticalAnalysis` returned when no season contributed
(`totalWeight === 0`) and by the outer `catch`. -/
def neutralStats : StatisticalAnalysis :=
  { homeAdvantage := 50, goalDifferential := 0, cleanSheetRatio := 0,
    scoringConsistency := 50, defensiveStrength := 50, attackingStrength := 50 }

/-- `Math.min(100, Math.max(0, x))`: the final clamp of the normalized
0-100 metrics. -/
def clampStat (x : ℚ) : ℚ := min 100 (max 0 x)

/-- Body of `PredictionEngine.analyzeTeamStatistics` after the per-season
lookups settled: accumulate weighted per-season metrics over qualifying
records, return `neutralStats` when `totalWeight = 0`, otherwise normalize
by `totalWeight` and clamp every 0-100 metric (`goalDifferential` stays
unclamped). -/
def analyzeTeamStatisticsData (data : List SeasonFetch) : StatisticalAnalysis :=
  let r := (fetchedSeasons data).foldl statsFold (zeroStats, 0)
  let ws := r.1
  let totalWeight := r.2
  if totalWeight = 0 then neutralStats
  else
    { homeAdvantage := clampStat (ws.homeAdvantage / totalWeight)
      goalDifferential := ws.goalDifferential / totalWeight
      cleanSheetRatio := clampStat (ws.cleanSheetRatio / totalWeight)
      scoringConsistency := clampStat (ws.scoringConsistency / totalWeight)
      defensiveStrength := clampStat (ws.defensiveStrength / totalWeight)
      attackingStrength := clampStat (ws.attackingStrength / totalWeight) }

/-- `PredictionEngine.analyzeTeamStatistics(teamId)`: the outer `try`
around the whole analysis maps any escaped failure to `neutralStats`. -/
def analyzeTeamStatistics (input : Except Unit (List SeasonFetch)) : StatisticalAnalysis :=
  match input with
  | Except.error _ => neutralStats
  | Except.ok data => analyzeTeamStatisticsData data

/-- Points `analyzeHeadToHead` awards team 1 for one match: 3 for a win,
1 for a draw, 0 for a loss, role-normalized through `teamGoalsIn`. -/
def h2hMatchPoints (team1Id : ℤ) (m : Fixture) : ℤ :=
  let tg := (teamGoalsIn team1Id m).1
  let og := (teamGoalsIn team1Id m).2
  if og < tg then 3 else if tg = og then 1 else 0

/-- `PredictionEngine.analyzeHeadToHead(team1Id, team2Id)`: `fetched` is
the settled promise of `Database.getHeadToHeadRecords`; rejection is caught
to the neutral 50, an empty history returns the neutral 50, otherwise
`(team1Score / (totalMatches * 3)) * 100`. -/
def analyzeHeadToHead (team1Id : ℤ) (fetched : Except Unit (List Fixture)) : ℚ :=
  match fetched with
  | Except.error _ => 50
  | Except.ok ms =>
    if ms.length = 0 then 50
    else
      let team1Score := ms.foldl (fun acc m => acc + h2hMatchPoints team1Id m) 0
      let maxScore : ℚ := (ms.length : ℚ) * 3
      ((team1Score : ℚ) / maxScore) * 100

/-- The logit of `calculateMLProbability`: the five features with the fixed
weights 0.02 / 0.01 / 0.015 / 0.008 / 0.5 and intercept 0.1. -/
def mlLogit (context : MatchContext) : ℚ :=
  (context.homeForm.formScore - context.awayForm.formScore) * (2 / 100) +
  (context.homeStats.goalDifferential - context.awayStats.goalDifferential) * (1 / 100) +
  (context.homeStats.attackingStrength - context.awayStats.defensiveStrength) * (15 / 1000) +
  (context.homeStats.cleanSheetRatio - context.awayStats.cleanSheetRatio) * (8 / 1000) +
  context.homeAdvantage * (1 / 2) +
  1 / 10

/-- Tail of `calculateMLProbability` after the two sigmoid evaluations:
`drawProb = 1 - homeWinProb - awayWinProb`,
`total = homeWinProb + drawProb + awayWinProb`, then the returned triple
`(homeWinProb / total, Math.max(0.1, drawProb / total), awayWinProb / total)`.
The 0.1 floor is applied to the already-divided draw component. -/
def mlNormalize (homeWinProb awayWinProb : ℚ) : ℚ × ℚ × ℚ :=
  let drawProb := 1 - homeWinProb - awayWinProb
  let total := homeWinProb + drawProb + awayWinProb
  (homeWinProb / total, max (1 / 10) (drawProb / total), awayWinProb / total)

/-- `PredictionEngine.calculateMLProbability(context)` with the sigmoid
`x ↦ 1 / (1 + Math.exp(-x))` abstracted as `sig`:
`homeWinProb = sig(logit)`, `awayWinProb = sig(-logit * 0.8)`, then
`mlNormalize`. -/
def calculateMLProbability (sig : ℚ → ℚ) (context : MatchContext) : ℚ × ℚ × ℚ :=
  let homeWinLogit := mlLogit context
  let homeWinProb := sig homeWinLogit
  let awayWinLogit := -homeWinLogit * (8 / 10)
  let awayWinProb := sig awayWinLogit
  mlNormalize homeWinProb awayWinProb

/-- The settled results of every asynchronous call a single
`predictMatch(fixture)` run makes: the two recent-form lookups, the two
per-season statistics fetch lists, and the two separate head-to-head
fetches (`generateMatchContext` and `analyzeHeadToHead` each issue one). -/
structure PredictEnv where
  fixture : Fixture
  homeRecent : Except Unit (List Fixture)
  awayRecent : Except Unit (List Fixture)
  homeSeasonData : Except Unit (List SeasonFetch)
  awaySeasonData : Except Unit (List SeasonFetch)
  h2hForContext : Except Unit (List Fixture)
  h2hForAnalysis : Except Unit (List Fixture)

/-- `PredictionEngine.generateMatchContext(fixture)`: runs both analyzers
for both teams (each absorbs its own failures) and fetches the head-to-head
list; that fetch is the only await without a surrounding `catch`, so its
rejection rejects the whole context build. -/
def generateMatchContext (env : PredictEnv) : Except Unit MatchContext :=
  match env.h2hForContext with
  | Except.error e => Except.error e
  | Except.ok h2h =>
    Except.ok
      { homeTeam := env.fixture.teams.home
        awayTeam := env.fixture.teams.away
        fixture := env.fixture
        homeForm := analyzeTeamForm env.fixture.teams.home.id 5 env.homeRecent
        awayForm := analyzeTeamForm env.fixture.teams.away.id 5 env.awayRecent
        homeStats := analyzeTeamStatistics env.homeSeasonData
        awayStats := analyzeTeamStatistics env.awaySeasonData
        headToHeadRecord := h2h
        homeAdvantage := HOME_ADVANTAGE_FACTOR * 100 }

/-- `homeFormScore = Math.max(0, Math.min(100, 50 + formDifference))`. -/
def homeFormScoreOf (formDifference : ℚ) : ℚ := max 0 (min 100 (50 + formDifference))

/-- `awayFormScore = Math.max(0, Math.min(100, 50 - formDifference))`. -/
def awayFormScoreOf (formDifference : ℚ) : ℚ := max 0 (min 100 (50 - formDifference))

/-- `formDifference = context.homeForm.formScore - context.awayForm.formScore`. -/
def formDifferenceOf (context : MatchContext) : ℚ :=
  context.homeForm.formScore - context.awayForm.formScore

/-- The `headToHeadScore` computed inside `predictMatch`:
`analyzeHeadToHead(context.homeTeam.id, context.awayTeam.id)` on the second
head-to-head fetch. -/
def h2hScoreOf (context : MatchContext) (fetched : Except Unit (List Fixture)) : ℚ :=
  analyzeHeadToHead context.homeTeam.id fetched

/-- `goalDiffFactor = Math.max(0, Math.min(100, 50 + (homeGD - awayGD) * 2))`. -/
def goalDiffFactorOf (context : MatchContext) : ℚ :=
  max 0 (min 100 (50 + (context.homeStats.goalDifferential -
    context.awayStats.goalDifferential) * 2))

/-- The weighted home composite of `predictMatch`:
form at `FORM_WEIGHT`, average of attack and defense at `STATS_WEIGHT`,
head-to-head at 0.1, home advantage at 0.15. -/
def homeScoreCalc (homeFormScore headToHeadScore : ℚ) (homeStats : StatisticalAnalysis)
    (homeAdvantage : ℚ) : ℚ :=
  homeFormScore * FORM_WEIGHT +
  (homeStats.attackingStrength + homeStats.defensiveStrength) / 2 * STATS_WEIGHT +
  headToHeadScore * (1 / 10) +
  homeAdvantage * (15 / 100)

/-- The weighted away composite of `predictMatch`: form, average of attack
and defense, inverted head-to-head — and no home-advantage term. -/
def awayScoreCalc (awayFormScore headToHeadScore : ℚ) (awayStats : StatisticalAnalysis) : ℚ :=
  awayFormScore * FORM_WEIGHT +
  (awayStats.attackingStrength + awayStats.defensiveStrength) / 2 * STATS_WEIGHT +
  (100 - headToHeadScore) * (1 / 10)

/-- `homeScore` as `predictMatch` computes it from a context and the second
head-to-head fetch. -/
def homeScoreOf (context : MatchContext) (fetched : Except Unit (List Fixture)) : ℚ :=
  homeScoreCalc (homeFormScoreOf (formDifferenceOf context)) (h2hScoreOf context fetched)
    context.homeStats (HOME_ADVANTAGE_FACTOR * 100)

/-- `awayScore` as `predictMatch` computes it. -/
def awayScoreOf (context : MatchContext) (fetched : Except Unit (List Fixture)) : ℚ :=
  awayScoreCalc (awayFormScoreOf (formDifferenceOf context)) (h2hScoreOf context fetched)
    context.awayStats

/-- `scoreDifference = homeScore - awayScore`. -/
def scoreDiffOf (context : MatchContext) (fetched : Except Unit (List Fixture)) : ℚ :=
  homeScoreOf context fetched - awayScoreOf context fetched

/-- `Math.max(mlProbs.homeWin, mlProbs.draw, mlProbs.awayWin)`. -/
def maxProbOf (sig : ℚ → ℚ) (context : MatchContext) : ℚ :=
  let p := calculateMLProbability sig context
  max p.1 (max p.2.1 p.2.2)

/-- The tie-break outcome of the close-match branch, with the exact source
precedence: `maxProb === homeWin` first, then `=== awayWin`, else `DRAW`. -/
def tieBreakOutcome (sig : ℚ → ℚ) (context : MatchContext) : Outcome :=
  let p := calculateMLProbability sig context
  let maxProb := maxProbOf sig context
  if maxProb = p.1 then Outcome.HOME_WIN
  else if maxProb = p.2.2 then Outcome.AWAY_WIN
  else Outcome.DRAW

/-- The conservative fallback of `predictMatch`: DRAW, confidence 30,
factors (50, 50, 50, 0, 50). -/
def fallbackResult : PredictionResult :=
  { prediction := Outcome.DRAW, confidence := 30,
    factors := { homeFormScore := 50, awayFormScore := 50, headToHeadScore := 50,
                 homeAdvantage := 0, goalDifferenceFactor := 50 } }

/-- Body of `predictMatch` once `generateMatchContext` succeeded: the
factor derivation, the two composites, the three-way decision on
`scoreDifference` against the ±10 band, and the final `Math.round` of the
confidence. -/
def scoreMatch (sig : ℚ → ℚ) (context : MatchContext)
    (fetched : Except Unit (List Fixture)) : PredictionResult :=
  let scoreDifference := scoreDiffOf context fetched
  let decided :=
    if 10 < scoreDifference then
      (Outcome.HOME_WIN, min 95 (60 + scoreDifference / 2))
    else if scoreDifference < -10 then
      (Outcome.AWAY_WIN, min 95 (60 + |scoreDifference| / 2))
    else
      (tieBreakOutcome sig context, min 75 (45 + maxProbOf sig context * 30))
  { prediction := decided.1
    confidence := roundJS decided.2
    factors :=
      { homeFormScore := homeFormScoreOf (formDifferenceOf context)
        awayFormScore := awayFormScoreOf (formDifferenceOf context)
        headToHeadScore := h2hScoreOf context fetched
        homeAdvantage := HOME_ADVANTAGE_FACTOR * 100
        goalDifferenceFactor := goalDiffFactorOf context } }

/-- `PredictionEngine.predictMatch(fixture)`: build the context; a failure
escaping to the top-level `try` (the uncaught head-to-head fetch of the
context build) yields `fallbackResult`; otherwise score the context. -/
def predictMatch (sig : ℚ → ℚ) (env : PredictEnv) : PredictionResult :=
  match generateMatchContext env with
  | Except.error _ => fallbackResult
  | Except.ok context => scoreMatch sig context env.h2hForAnalysis

/-! Helper lemmas. -/

/-- A ratio score `num / den * 100` lies in `[0, 100]` when `0 ≤ num ≤ den`
and `0 < den`. -/
lemma ratioScore_bounds {num den : ℚ} (h0 : 0 ≤ num) (hle : num ≤ den) (hd : 0 < den) :
    0 ≤ num / den * 100 ∧ num / den * 100 ≤ 100 := by
  have h1 : num / den ≤ 1 := (div_le_one hd).mpr hle
  have h2 : 0 ≤ num / den := div_nonneg h0 hd.le
  constructor
  · positivity
  · nlinarith

/-- `clampStat` always lands in `[0, 100]`. -/
lemma clampStat_mem (x : ℚ) : 0 ≤ clampStat x ∧ clampStat x ≤ 100 := by
  unfold clampStat
  constructor
  · exact le_min (by norm_num) (le_max_left 0 x)
  · exact min_le_left 100 _

/-- `clampStat` is the identity on `[0, 100]`. -/
lemma clampStat_eq_self {x : ℚ} (h0 : 0 ≤ x) (h1 : x ≤ 100) : clampStat x = x := by
  unfold clampStat
  rw [max_eq_right h0, min_eq_right h1]

/-- Round-half-up stays between any integer bounds enclosing its argument. -/
lemma roundJS_bounds {a b : ℤ} {x : ℚ} (h1 : (a : ℚ) ≤ x) (h2 : x ≤ (b : ℚ)) :
    a ≤ roundJS x ∧ roundJS x ≤ b := by
  unfold roundJS
  constructor
  · exact Int.le_floor.mpr (by linarith)
  · have hlt : Int.floor (x + 1 / 2) < b + 1 := Int.floor_lt.mpr (by push_cast; linarith)
    omega

/-- `mlNormalize` in closed form: the `total` denominator is identically 1,
so the division is trivial and the floor acts on the raw `drawProb`. -/
lemma mlNormalize_eval (h a : ℚ) :
    mlNormalize h a = (h, max (1 / 10) (1 - h - a), a) := by
  have ht : h + (1 - h - a) + a = 1 := by ring
  simp only [mlNormalize, ht, div_one]

/-- `calculateMLProbability` in closed form through `mlNormalize_eval`. -/
lemma calculateMLProbability_eval (sig : ℚ → ℚ) (context : MatchContext) :
    calculateMLProbability sig context =
      (sig (mlLogit context),
       max (1 / 10) (1 - sig (mlLogit context) - sig (-mlLogit context * (8 / 10))),
       sig (-mlLogit context * (8 / 10))) := by
  simp only [calculateMLProbability, mlNormalize_eval]

/-! C10. -/

/-- C10: for every form difference `d` (not only `d ∈ [-100, 100]`), the
clamped factors `homeFormScore = clamp(50 + d, 0, 100)` and
`awayFormScore = clamp(50 - d, 0, 100)` of `predictMatch` sum to exactly 100. -/
theorem formScore_factors_sum_100 (d : ℚ) :
    homeFormScoreOf d + awayFormScoreOf d = 100 := by
  unfold homeFormScoreOf awayFormScoreOf
  rcases le_total d (-50) with h | h
  · rw [min_eq_right (by linarith), max_eq_left (by linarith),
      min_eq_left (by linarith), max_eq_right (by linarith)]
    ring
  · rcases le_total d 50 with h2 | h2
    · rw [min_eq_right (by linarith), max_eq_right (by linarith),
        min_eq_right (by linarith), max_eq_right (by linarith)]
      ring
    · rw [min_eq_left (by linarith), max_eq_right (by linarith),
        min_eq_right (by linarith), max_eq_left (by linarith)]
      ring

/-! C9. -/

/-- C9: the weighted composites of `predictMatch` match the spec formulas
exactly — form at 0.40, averaged attack/defense at 0.35, head-to-head at
0.10, and a `15 × 0.15` home-advantage term present only in the home score
(the away composite has no home-advantage term). -/
theorem composite_score_formulas (context : MatchContext)
    (fetched : Except Unit (List Fixture)) :
    homeScoreOf context fetched =
      homeFormScoreOf (formDifferenceOf context) * (40 / 100) +
        (context.homeStats.attackingStrength + context.homeStats.defensiveStrength) / 2 *
          (35 / 100) +
        h2hScoreOf context fetched * (10 / 100) + 15 * (15 / 100) ∧
    awayScoreOf context fetched =
      awayFormScoreOf (formDifferenceOf context) * (40 / 100) +
        (context.awayStats.attackingStrength + context.awayStats.defensiveStrength) / 2 *
          (35 / 100) +
        (100 - h2hScoreOf context fetched) * (10 / 100) := by
  constructor
  · simp only [homeScoreOf, homeScoreCalc, HOME_ADVANTAGE_FACTOR, FORM_WEIGHT, STATS_WEIGHT]
    ring
  · simp only [awayScoreOf, awayScoreCalc, FORM_WEIGHT, STATS_WEIGHT]
    ring

/-! C3. -/

/-- A context at which the logit of the probability model is exactly 0:
identical neutral forms and statistics except a home goal differential of
-760, which cancels the 7.5-point home-advantage contribution and the 0.1
intercept.  At logit 0 the true sigmoid returns exactly 1/2 on both
evaluation points, so a constant-1/2 stand-in is faithful here. -/
def ctxML : MatchContext :=
  { homeTeam := { id := 1, name := "A" }
    awayTeam := { id := 2, name := "B" }
    fixture :=
      { id := 100, date := 0, status := { short := "NS" },
        teams := { home := { id := 1, name := "A" }, away := { id := 2, name := "B" } },
        goals := { home := none, away := none } }
    homeForm := neutralForm
    awayForm := neutralForm
    homeStats := { neutralStats with goalDifferential := -760 }
    awayStats := neutralStats
    headToHeadRecord := []
    homeAdvantage := 15 }

/-- The constant 1/2, the value of the true sigmoid at logit 0. -/
def sigHalf : ℚ → ℚ := fun _ => 1 / 2

/-- The constant 1/4, a value inside the open range (0, 1) of the sigmoid. -/
def sigQuarter : ℚ → ℚ := fun _ => 1 / 4

/-- C3 counterexample: at `ctxML` the logit is 0, both sigmoid values are
1/2, and `calculateMLProbability` returns `(1/2, 1/10, 1/2)` — the 0.1
floor is applied after the (trivial) normalization, so the three returned
probabilities sum to 11/10, not 1. -/
theorem calculateMLProbability_sum_counterexample :
    mlLogit ctxML = 0 ∧
    calculateMLProbability sigHalf ctxML = (1 / 2, 1 / 10, 1 / 2) ∧
    (1 / 2 + 1 / 10 + 1 / 2 : ℚ) ≠ 1 := by
  have hlog : mlLogit ctxML = 0 := by
    norm_num [mlLogit, ctxML, neutralForm, neutralStats]
  refine ⟨hlog, ?_, by norm_num⟩
  rw [calculateMLProbability_eval, hlog]
  norm_num [sigHalf]

/-- C3 amended: with `drawProb = 1 - homeWinProb - awayWinProb`, the
normalization total is identically 1, so the 0.1 floor is applied AFTER
the final division; the three returned probabilities are all non-negative,
but they sum to `max 1 (homeWinProb + awayWinProb + 1/10)`, which exceeds 1
exactly when the unfloored `drawProb` is below 0.1. -/
theorem calculateMLProbability_floor_after_normalization (sig : ℚ → ℚ)
    (context : MatchContext) (hsig : ∀ x, 0 < sig x ∧ sig x < 1) :
    0 ≤ (calculateMLProbability sig context).1 ∧
    0 ≤ (calculateMLProbability sig context).2.1 ∧
    0 ≤ (calculateMLProbability sig context).2.2 ∧
    (calculateMLProbability sig context).1 + (calculateMLProbability sig context).2.1 +
        (calculateMLProbability sig context).2.2 =
      max 1 (sig (mlLogit context) + sig (-mlLogit context * (8 / 10)) + 1 / 10) := by
  rw [calculateMLProbability_eval]
  obtain ⟨hh0, hh1⟩ := hsig (mlLogit context)
  obtain ⟨ha0, ha1⟩ := hsig (-mlLogit context * (8 / 10))
  refine ⟨hh0.le, le_trans (by norm_num) (le_max_left _ _), ha0.le, ?_⟩
  rcases le_total (1 - sig (mlLogit context) - sig (-mlLogit context * (8 / 10))) (1 / 10) with
    hle | hle
  · rw [max_eq_left hle, max_eq_right (by linarith)]
    ring
  · rw [max_eq_right hle, max_eq_left (by linarith)]
    ring

/-- C3 witness: the amended theorem applied at the constant-1/4 sigmoid
stand-in and the concrete context `ctxML`. -/
theorem calculateMLProbability_floor_after_normalization_witness :
    (∀ x, 0 < sigQuarter x ∧ sigQuarter x < 1) ∧
    (0 ≤ (calculateMLProbability sigQuarter ctxML).1 ∧
     0 ≤ (calculateMLProbability sigQuarter ctxML).2.1 ∧
     0 ≤ (calculateMLProbability sigQuarter ctxML).2.2 ∧
     (calculateMLProbability sigQuarter ctxML).1 +
         (calculateMLProbability sigQuarter ctxML).2.1 +
         (calculateMLProbability sigQuarter ctxML).2.2 =
       max 1 (sigQuarter (mlLogit ctxML) + sigQuarter (-mlLogit ctxML * (8 / 10)) + 1 / 10)) :=
  ⟨fun x => by norm_num [sigQuarter],
   calculateMLProbability_floor_after_normalization sigQuarter ctxML
     (fun x => by norm_num [sigQuarter])⟩

/-! C7. -/

/-- A season record with `played = 1` but an all-zero home split — a team
whose only completed match was away.  It qualifies for the statistics loop
yet its `homeAdvantage` denominator is 0. -/
def statC7 : TeamStatistics :=
  { team_id := 1, season := 2024, played := 1, wins := 0, draws := 0, losses := 1,
    goals_for := 0, goals_against := 1, goal_difference := -1, points := 0,
    home_wins := 0, home_draws := 0, home_losses := 0,
    away_wins := 0, away_draws := 0, away_losses := 1,
    clean_sheets := 0, failed_to_score := 1 }

/-- C7 counterexample: `statC7` qualifies (`played > 0`) but the
`homeAdvantage` denominator `(homeWins + homeDraws + homeLosses) × 3` is 0,
refuting the claim that the division is well-defined for every qualifying
record; JavaScript computes `0/0 = NaN` there (the exact-rational model
reads the quotient as 0, so the record still flows through the sums). -/
theorem homeAdvantage_denominator_counterexample :
    0 < statC7.played ∧ homeDenom statC7 = 0 ∧
    fetchedSeasons [(Except.ok (some statC7), 1 / 2)] = [(statC7, 1 / 2)] := by
  refine ⟨by norm_num [statC7], by norm_num [homeDenom, statC7], ?_⟩
  rfl

/-- C7 amended: in the exact-rational model (division by zero read as 0;
in JavaScript a zero home denominator instead yields NaN, which survives
the clamps), every 0-100-scale field of `analyzeTeamStatistics` lies in
`[0, 100]` for every input, because each is either a neutral constant or
the image of `clampStat`. -/
theorem analyzeTeamStatistics_range_amended (input : Except Unit (List SeasonFetch)) :
    (0 ≤ (analyzeTeamStatistics input).homeAdvantage ∧
      (analyzeTeamStatistics input).homeAdvantage ≤ 100) ∧
    (0 ≤ (analyzeTeamStatistics input).cleanSheetRatio ∧
      (analyzeTeamStatistics input).cleanSheetRatio ≤ 100) ∧
    (0 ≤ (analyzeTeamStatistics input).scoringConsistency ∧
      (analyzeTeamStatistics input).scoringConsistency ≤ 100) ∧
    (0 ≤ (analyzeTeamStatistics input).defensiveStrength ∧
      (analyzeTeamStatistics input).defensiveStrength ≤ 100) ∧
    (0 ≤ (analyzeTeamStatistics input).attackingStrength ∧
      (analyzeTeamStatistics input).attackingStrength ≤ 100) := by
  cases input with
  | error e =>
    simp only [analyzeTeamStatistics, neutralStats]
    norm_num
  | ok data =>
    simp only [analyzeTeamStatistics, analyzeTeamStatisticsData]
    split
    · simp only [neutralStats]
      norm_num
    · exact ⟨clampStat_mem _, clampStat_mem _, clampStat_mem _, clampStat_mem _,
        clampStat_mem _⟩

/-! C2. -/

/-- One `formFold` step moves `wins*3 + draws` up by at most 3 and never
down. -/
lemma formFold_step_bounds (teamId : ℤ) (acc : FormAcc) (m : Fixture) :
    acc.wins * 3 + acc.draws ≤
        (formFold teamId acc m).wins * 3 + (formFold teamId acc m).draws ∧
    (formFold teamId acc m).wins * 3 + (formFold teamId acc m).draws ≤
        acc.wins * 3 + acc.draws + 3 := by
  unfold formFold
  dsimp
  split_ifs <;> omega

/-- Over a whole list, `wins*3 + draws` grows by at most 3 per match and
never shrinks. -/
lemma formFold_list_bounds (teamId : ℤ) (l : List Fixture) :
    ∀ acc : FormAcc,
      acc.wins * 3 + acc.draws ≤
          (l.foldl (formFold teamId) acc).wins * 3 + (l.foldl (formFold teamId) acc).draws ∧
      (l.foldl (formFold teamId) acc).wins * 3 + (l.foldl (formFold teamId) acc).draws ≤
          acc.wins * 3 + acc.draws + 3 * (l.length : ℤ) := by
  induction l with
  | nil => intro acc; simp
  | cons m t ih =>
    intro acc
    have hstep := formFold_step_bounds teamId acc m
    have ht := ih (formFold teamId acc m)
    simp only [List.foldl_cons, List.length_cons]
    constructor
    · exact le_trans hstep.1 ht.1
    · refine le_trans ht.2 ?_
      have h3 := hstep.2
      push_cast
      linarith

/-- C2 counterexample: a team with zero qualifying completed matches in its
history view gets `formScore = 0` (an empty loop divided by `matches × 3`),
not the claimed neutral 50 — the 50 fallback fires only when the lookup
itself rejects. -/
theorem analyzeTeamForm_zero_history_counterexample :
    getTeamRecentForm 1 5 [] = [] ∧
    analyzeTeamForm 1 5 (Except.ok (getTeamRecentForm 1 5 [])) =
      { wins := 0, draws := 0, losses := 0, goalsFor := 0, goalsAgainst := 0,
        points := 0, formScore := 0 } ∧
    (analyzeTeamForm 1 5 (Except.ok (getTeamRecentForm 1 5 []))).formScore ≠ 50 := by
  have hnil : getTeamRecentForm 1 5 [] = [] := by
    simp [getTeamRecentForm]
  refine ⟨hnil, ?_, ?_⟩ <;> rw [hnil] <;> norm_num [analyzeTeamForm]

/-- C2 amended: with zero qualifying completed matches the result has all
counts 0 and `formScore = 0` (the neutral `formScore = 50` is returned only
when the history lookup itself fails); and on any history view — which the
database truncates to at most `matchCount` matches — `formScore ∈ [0, 100]`
provided `matchCount ≥ 1`. -/
theorem analyzeTeamForm_empty_and_range (teamId : ℤ) (matchCount : ℕ) (db : List Fixture)
    (hpos : 0 < matchCount) :
    (getTeamRecentForm teamId matchCount db = [] →
      analyzeTeamForm teamId matchCount (Except.ok (getTeamRecentForm teamId matchCount db)) =
        { wins := 0, draws := 0, losses := 0, goalsFor := 0, goalsAgainst := 0,
          points := 0, formScore := 0 }) ∧
    analyzeTeamForm teamId matchCount (Except.error ()) = neutralForm ∧
    0 ≤ (analyzeTeamForm teamId matchCount
        (Except.ok (getTeamRecentForm teamId matchCount db))).formScore ∧
    (analyzeTeamForm teamId matchCount
        (Except.ok (getTeamRecentForm teamId matchCount db))).formScore ≤ 100 := by
  have hlen : (getTeamRecentForm teamId matchCount db).length ≤ matchCount := by
    unfold getTeamRecentForm
    exact List.length_take_le _ _
  have hb := formFold_list_bounds teamId (getTeamRecentForm teamId matchCount db) ⟨0, 0, 0, 0, 0⟩
  set l := getTeamRecentForm teamId matchCount db with hl
  obtain ⟨hb1, hb2⟩ := hb
  simp only at hb1 hb2
  have hnum0 : (0 : ℤ) ≤ (l.foldl (formFold teamId) ⟨0, 0, 0, 0, 0⟩).wins * 3 +
      (l.foldl (formFold teamId) ⟨0, 0, 0, 0, 0⟩).draws := by
    simpa using hb1
  have hnumle : (l.foldl (formFold teamId) ⟨0, 0, 0, 0, 0⟩).wins * 3 +
      (l.foldl (formFold teamId) ⟨0, 0, 0, 0, 0⟩).draws ≤ 3 * (matchCount : ℤ) := by
    have : (l.length : ℤ) ≤ (matchCount : ℤ) := by exact_mod_cast hlen
    have h2 := hb2
    simp only [zero_mul, zero_add] at h2
    linarith
  have hnumq : (0 : ℚ) ≤ (((l.foldl (formFold teamId) ⟨0, 0, 0, 0, 0⟩).wins * 3 +
      (l.foldl (formFold teamId) ⟨0, 0, 0, 0, 0⟩).draws : ℤ) : ℚ) := by
    exact_mod_cast hnum0
  have hleq : (((l.foldl (formFold teamId) ⟨0, 0, 0, 0, 0⟩).wins * 3 +
      (l.foldl (formFold teamId) ⟨0, 0, 0, 0, 0⟩).draws : ℤ) : ℚ) ≤ (matchCount : ℚ) * 3 := by
    exact_mod_cast hnumle.trans_eq (mul_comm 3 (matchCount : ℤ))
  have hdq : (0 : ℚ) < (matchCount : ℚ) * 3 := by positivity
  have hrange := ratioScore_bounds hnumq hleq hdq
  refine ⟨?_, rfl, ?_, ?_⟩
  · intro h
    rw [h]
    norm_num [analyzeTeamForm]
  · simpa [analyzeTeamForm] using hrange.1
  · simpa [analyzeTeamForm] using hrange.2

/-- C2 witness: the amended theorem at team 1, the default 5-match window,
and an empty fixture store. -/
theorem analyzeTeamForm_empty_and_range_witness :
    0 < 5 ∧
    ((getTeamRecentForm 1 5 [] = [] →
      analyzeTeamForm 1 5 (Except.ok (getTeamRecentForm 1 5 [])) =
        { wins := 0, draws := 0, losses := 0, goalsFor := 0, goalsAgainst := 0,
          points := 0, formScore := 0 }) ∧
    analyzeTeamForm 1 5 (Except.error ()) = neutralForm ∧
    0 ≤ (analyzeTeamForm 1 5 (Except.ok (getTeamRecentForm 1 5 []))).formScore ∧
    (analyzeTeamForm 1 5 (Except.ok (getTeamRecentForm 1 5 []))).formScore ≤ 100) :=
  ⟨by norm_num, analyzeTeamForm_empty_and_range 1 5 [] (by norm_num)⟩

/-! C5 and C6: the weighted multi-season aggregation. -/

/-- The seasons that actually contribute: a record was fetched and it has
`played > 0`. -/
def contributing (data : List SeasonFetch) : List (TeamStatistics × ℚ) :=
  (fetchedSeasons data).filter fun e => decide (0 < e.1.played)

/-- Weighted sum of a per-season metric over a list of (record, weight)
pairs. -/
def wsum (f : TeamStatistics → ℚ) (l : List (TeamStatistics × ℚ)) : ℚ :=
  (l.map fun e => f e.1 * e.2).sum

/-- Total weight of a list of (record, weight) pairs. -/
def totalW (l : List (TeamStatistics × ℚ)) : ℚ :=
  (l.map Prod.snd).sum

/-- The `analyzeTeamStatistics` loop in closed form: starting from any
accumulator, folding `statsFold` adds, component-wise, the weighted sums
of the six per-season metrics over exactly the qualifying entries, and
adds their total weight. -/
lemma statsFold_foldl (l : List (TeamStatistics × ℚ)) :
    ∀ acc : StatisticalAnalysis × ℚ,
      l.foldl statsFold acc =
        ({ homeAdvantage := acc.1.homeAdvantage +
             wsum seasonHomeAdvantage (l.filter fun e => decide (0 < e.1.played))
           goalDifferential := acc.1.goalDifferential +
             wsum (fun s => (s.goal_difference : ℚ)) (l.filter fun e => decide (0 < e.1.played))
           cleanSheetRatio := acc.1.cleanSheetRatio +
             wsum seasonCleanSheetRatio (l.filter fun e => decide (0 < e.1.played))
           scoringConsistency := acc.1.scoringConsistency +
             wsum seasonScoringConsistency (l.filter fun e => decide (0 < e.1.played))
           defensiveStrength := acc.1.defensiveStrength +
             wsum seasonDefensiveStrength (l.filter fun e => decide (0 < e.1.played))
           attackingStrength := acc.1.attackingStrength +
             wsum seasonAttackingStrength (l.filter fun e => decide (0 < e.1.played)) },
         acc.2 + totalW (l.filter fun e => decide (0 < e.1.played))) := by
  induction l with
  | nil => intro acc; simp [wsum, totalW]
  | cons e t ih =>
    intro acc
    rw [List.foldl_cons, ih]
    by_cases hp : 0 < e.1.played
    · simp only [statsFold, if_pos hp, List.filter_cons, decide_eq_true_eq, hp, if_true,
        wsum, totalW, List.map_cons, List.sum_cons]
      simp only [Prod.mk.injEq, StatisticalAnalysis.mk.injEq]
      refine ⟨⟨?_, ?_, ?_, ?_, ?_, ?_⟩, ?_⟩ <;> dsimp <;> ring
    · simp only [statsFold, if_neg hp, List.filter_cons, decide_eq_true_eq, hp, if_false]

/-- Entries of `fetchedSeasons` come from `Except.ok (some _)` entries of
the input, with the same weight. -/
lemma mem_fetchedSeasons {data : List SeasonFetch} {e : TeamStatistics × ℚ}
    (h : e ∈ fetchedSeasons data) : (Except.ok (some e.1), e.2) ∈ data := by
  unfold fetchedSeasons at h
  rw [List.mem_filterMap] at h
  obtain ⟨p, hp, hfp⟩ := h
  match hq : p.1 with
  | Except.ok (some s) =>
    rw [hq] at hfp
    simp only [Option.some.injEq] at hfp
    have hps : p = (Except.ok (some e.1), e.2) := by
      rcases p with ⟨p1, p2⟩
      simp only at hq
      rw [Prod.mk.injEq]
      constructor
      · rw [hq, ← hfp]
      · rw [← hfp]
    rwa [hps] at hp
  | Except.ok none => rw [hq] at hfp; simp at hfp
  | Except.error u => rw [hq] at hfp; simp at hfp

/-- C5: when no fetched season record has `played > 0` — in particular when
every lookup failed or returned nothing — `analyzeTeamStatistics` returns
exactly the neutral tuple (homeAdvantage 50, goalDifferential 0,
cleanSheetRatio 0, scoringConsistency 50, defensiveStrength 50,
attackingStrength 50), and a rejected analysis as a whole is caught to the
same tuple; the function is total and never propagates an error. -/
theorem analyzeTeamStatistics_neutral_when_no_data (data : List SeasonFetch)
    (h : ∀ p ∈ data, ∀ s : TeamStatistics, p.1 = Except.ok (some s) → s.played ≤ 0) :
    analyzeTeamStatistics (Except.ok data) = neutralStats ∧
    analyzeTeamStatisticsData data = neutralStats ∧
    analyzeTeamStatistics (Except.error ()) = neutralStats := by
  have hfilter : (fetchedSeasons data).filter (fun e => decide (0 < e.1.played)) = [] := by
    rw [List.filter_eq_nil_iff]
    intro e he
    have hmem := mem_fetchedSeasons he
    have := h _ hmem e.1 rfl
    simp only [decide_eq_true_eq]
    omega
  have hdata : analyzeTeamStatisticsData data = neutralStats := by
    unfold analyzeTeamStatisticsData
    rw [statsFold_foldl, hfilter]
    simp [wsum, totalW]
  exact ⟨hdata, hdata, rfl⟩

/-- A fetched season record with no matches played. -/
def statZero : TeamStatistics :=
  { team_id := 1, season := 2024, played := 0, wins := 0, draws := 0, losses := 0,
    goals_for := 0, goals_against := 0, goal_difference := 0, points := 0,
    home_wins := 0, home_draws := 0, home_losses := 0,
    away_wins := 0, away_draws := 0, away_losses := 0,
    clean_sheets := 0, failed_to_score := 0 }

/-- C5 witness: one rejected lookup, one `null` record and one record with
`played = 0` — no season qualifies, so the analysis is neutral. -/
theorem analyzeTeamStatistics_neutral_when_no_data_witness :
    (∀ p ∈ [((Except.error () : Except Unit (Option TeamStatistics)), (1 : ℚ) / 2),
        (Except.ok none, 3 / 10), (Except.ok (some statZero), 1 / 5)],
      ∀ s : TeamStatistics, p.1 = Except.ok (some s) → s.played ≤ 0) ∧
    analyzeTeamStatistics (Except.ok
      [((Except.error () : Except Unit (Option TeamStatistics)), (1 : ℚ) / 2),
        (Except.ok none, 3 / 10), (Except.ok (some statZero), 1 / 5)]) = neutralStats := by
  have h : ∀ p ∈ [((Except.error () : Except Unit (Option TeamStatistics)), (1 : ℚ) / 2),
      (Except.ok none, 3 / 10), (Except.ok (some statZero), 1 / 5)],
      ∀ s : TeamStatistics, p.1 = Except.ok (some s) → s.played ≤ 0 := by
    intro p hp s hs
    rcases List.mem_cons.mp hp with rfl | hp2
    · simp at hs
    rcases List.mem_cons.mp hp2 with rfl | hp3
    · simp at hs
    rcases List.mem_cons.mp hp3 with rfl | hp4
    · simp only [Except.ok.injEq, Option.some.injEq] at hs
      rw [← hs]
      norm_num [statZero]
    · simp at hp4
  exact ⟨h, (analyzeTeamStatistics_neutral_when_no_data _ h).1⟩

/-- Per-season `homeAdvantage` lies in `[0, 100]` when the home split is
non-negative and not all zero. -/
lemma seasonHomeAdvantage_bounds {s : TeamStatistics} (hw : 0 ≤ s.home_wins)
    (hd : 0 ≤ s.home_draws) (hl : 0 ≤ s.home_losses)
    (hsum : 0 < s.home_wins + s.home_draws + s.home_losses) :
    0 ≤ seasonHomeAdvantage s ∧ seasonHomeAdvantage s ≤ 100 := by
  have hwq : (0 : ℚ) ≤ (s.home_wins : ℚ) := by exact_mod_cast hw
  have hdq : (0 : ℚ) ≤ (s.home_draws : ℚ) := by exact_mod_cast hd
  have hlq : (0 : ℚ) ≤ (s.home_losses : ℚ) := by exact_mod_cast hl
  have hsq : (0 : ℚ) < (s.home_wins : ℚ) + (s.home_draws : ℚ) + (s.home_losses : ℚ) := by
    exact_mod_cast hsum
  exact ratioScore_bounds (by linarith) (by linarith) (by linarith)

/-- Per-season `cleanSheetRatio` lies in `[0, 100]` for a valid record. -/
lemma seasonCleanSheetRatio_bounds {s : TeamStatistics} (hp : 0 < s.played)
    (h0 : 0 ≤ s.clean_sheets) (hle : s.clean_sheets ≤ s.played) :
    0 ≤ seasonCleanSheetRatio s ∧ seasonCleanSheetRatio s ≤ 100 := by
  have hpq : (0 : ℚ) < (s.played : ℚ) := by exact_mod_cast hp
  have h0q : (0 : ℚ) ≤ (s.clean_sheets : ℚ) := by exact_mod_cast h0
  have hleq : (s.clean_sheets : ℚ) ≤ (s.played : ℚ) := by exact_mod_cast hle
  exact ratioScore_bounds h0q hleq hpq

/-- Per-season `scoringConsistency` lies in `[0, 100]` for a valid record. -/
lemma seasonScoringConsistency_bounds {s : TeamStatistics} (hp : 0 < s.played)
    (h0 : 0 ≤ s.failed_to_score) (hle : s.failed_to_score ≤ s.played) :
    0 ≤ seasonScoringConsistency s ∧ seasonScoringConsistency s ≤ 100 := by
  have hpq : (0 : ℚ) < (s.played : ℚ) := by exact_mod_cast hp
  have h0q : (0 : ℚ) ≤ (s.failed_to_score : ℚ) := by exact_mod_cast h0
  have hleq : (s.failed_to_score : ℚ) ≤ (s.played : ℚ) := by exact_mod_cast hle
  exact ratioScore_bounds (by linarith) (by linarith) hpq

/-- Per-season `defensiveStrength` lies in `[0, 100]` for a valid record. -/
lemma seasonDefensiveStrength_bounds {s : TeamStatistics} (hp : 0 < s.played)
    (hga : 0 ≤ s.goals_against) :
    0 ≤ seasonDefensiveStrength s ∧ seasonDefensiveStrength s ≤ 100 := by
  have hpq : (0 : ℚ) < (s.played : ℚ) := by exact_mod_cast hp
  have hgq : (0 : ℚ) ≤ (s.goals_against : ℚ) := by exact_mod_cast hga
  have ht : 0 ≤ (s.goals_against : ℚ) / (s.played : ℚ) * 25 := by positivity
  unfold seasonDefensiveStrength
  exact ⟨le_max_left 0 _, max_le (by norm_num) (by linarith)⟩

/-- Per-season `attackingStrength` lies in `[0, 100]` for a valid record. -/
lemma seasonAttackingStrength_bounds {s : TeamStatistics} (hp : 0 < s.played)
    (hgf : 0 ≤ s.goals_for) :
    0 ≤ seasonAttackingStrength s ∧ seasonAttackingStrength s ≤ 100 := by
  have hpq : (0 : ℚ) < (s.played : ℚ) := by exact_mod_cast hp
  have hgq : (0 : ℚ) ≤ (s.goals_for : ℚ) := by exact_mod_cast hgf
  unfold seasonAttackingStrength
  exact ⟨le_min (by norm_num) (by positivity), min_le_left 100 _⟩

/-- A weighted sum of `[0, 100]` metrics with non-negative weights lies
between 0 and `100 × totalW`. -/
lemma wsum_bounds (f : TeamStatistics → ℚ) (l : List (TeamStatistics × ℚ))
    (hf : ∀ e ∈ l, 0 ≤ f e.1 ∧ f e.1 ≤ 100) (hw : ∀ e ∈ l, 0 ≤ e.2) :
    0 ≤ wsum f l ∧ wsum f l ≤ 100 * totalW l := by
  induction l with
  | nil => simp [wsum, totalW]
  | cons e t ih =>
    obtain ⟨h1, h2⟩ := ih (fun x hx => hf x (List.mem_cons_of_mem _ hx))
      (fun x hx => hw x (List.mem_cons_of_mem _ hx))
    have hfe := hf e (List.mem_cons_self _ _)
    have hwe := hw e (List.mem_cons_self _ _)
    simp only [wsum, totalW, List.map_cons, List.sum_cons] at h1 h2 ⊢
    constructor
    · have := mul_nonneg hfe.1 hwe
      linarith
    · have := mul_le_mul_of_nonneg_right hfe.2 hwe
      nlinarith

/-- A non-empty list of positive weights has positive total weight. -/
lemma totalW_pos {l : List (TeamStatistics × ℚ)} (hne : l ≠ [])
    (hw : ∀ e ∈ l, 0 < e.2) : 0 < totalW l := by
  unfold totalW
  apply List.sum_pos
  · intro x hx
    rw [List.mem_map] at hx
    obtain ⟨e, he, rfl⟩ := hx
    exact hw e he
  · intro hc
    exact hne (List.map_eq_nil_iff.mp hc)

/-- C6: when at least one season contributes, every returned metric is the
weight-normalized sum `Σ(metric × weight) / Σ(weight)` over exactly the
contributing seasons (a record fetched and `played > 0`); skipped seasons
do not dilute the normalization; the per-season metrics are the stated
formulas.  Validity of the contributing records (non-negative counts,
clean sheets and failed-to-score within `played`, at least one home
result) makes each 0-100 metric land inside its clamp, so the clamps are
the identity. -/
theorem analyzeTeamStatistics_weight_normalized (data : List SeasonFetch)
    (hne : contributing data ≠ [])
    (hw : ∀ p ∈ data, 0 < p.2)
    (hvalid : ∀ e ∈ contributing data,
      0 ≤ e.1.home_wins ∧ 0 ≤ e.1.home_draws ∧ 0 ≤ e.1.home_losses ∧
      0 < e.1.home_wins + e.1.home_draws + e.1.home_losses ∧
      0 ≤ e.1.clean_sheets ∧ e.1.clean_sheets ≤ e.1.played ∧
      0 ≤ e.1.failed_to_score ∧ e.1.failed_to_score ≤ e.1.played ∧
      0 ≤ e.1.goals_for ∧ 0 ≤ e.1.goals_against) :
    analyzeTeamStatisticsData data =
      { homeAdvantage :=
          wsum seasonHomeAdvantage (contributing data) / totalW (contributing data)
        goalDifferential :=
          wsum (fun s => (s.goal_difference : ℚ)) (contributing data) /
            totalW (contributing data)
        cleanSheetRatio :=
          wsum seasonCleanSheetRatio (contributing data) / totalW (contributing data)
        scoringConsistency :=
          wsum seasonScoringConsistency (contributing data) / totalW (contributing data)
        defensiveStrength :=
          wsum seasonDefensiveStrength (contributing data) / totalW (contributing data)
        attackingStrength :=
          wsum seasonAttackingStrength (contributing data) / totalW (contributing data) } := by
  have hwC : ∀ e ∈ contributing data, 0 < e.2 := by
    intro e he
    exact hw _ (mem_fetchedSeasons (List.mem_of_mem_filter he))
  have hpC : ∀ e ∈ contributing data, 0 < e.1.played := by
    intro e he
    have := List.of_mem_filter he
    simpa [decide_eq_true_eq] using this
  have hWpos := totalW_pos hne hwC
  have hHA : ∀ e ∈ contributing data,
      0 ≤ seasonHomeAdvantage e.1 ∧ seasonHomeAdvantage e.1 ≤ 100 := by
    intro e he
    obtain ⟨h1, h2, h3, h4, _⟩ := hvalid e he
    exact seasonHomeAdvantage_bounds h1 h2 h3 h4
  have hCS : ∀ e ∈ contributing data,
      0 ≤ seasonCleanSheetRatio e.1 ∧ seasonCleanSheetRatio e.1 ≤ 100 := by
    intro e he
    obtain ⟨_, _, _, _, h5, h6, _⟩ := hvalid e he
    exact seasonCleanSheetRatio_bounds (hpC e he) h5 h6
  have hSC : ∀ e ∈ contributing data,
      0 ≤ seasonScoringConsistency e.1 ∧ seasonScoringConsistency e.1 ≤ 100 := by
    intro e he
    obtain ⟨_, _, _, _, _, _, h7, h8, _⟩ := hvalid e he
    exact seasonScoringConsistency_bounds (hpC e he) h7 h8
  have hDS : ∀ e ∈ contributing data,
      0 ≤ seasonDefensiveStrength e.1 ∧ seasonDefensiveStrength e.1 ≤ 100 := by
    intro e he
    obtain ⟨_, _, _, _, _, _, _, _, _, h10⟩ := hvalid e he
    exact seasonDefensiveStrength_bounds (hpC e he) h10
  have hAS : ∀ e ∈ contributing data,
      0 ≤ seasonAttackingStrength e.1 ∧ seasonAttackingStrength e.1 ≤ 100 := by
    intro e he
    obtain ⟨_, _, _, _, _, _, _, _, h9, _⟩ := hvalid e he
    exact seasonAttackingStrength_bounds (hpC e he) h9
  have hquot : ∀ f : TeamStatistics → ℚ,
      (∀ e ∈ contributing data, 0 ≤ f e.1 ∧ f e.1 ≤ 100) →
      clampStat (wsum f (contributing data) / totalW (contributing data)) =
        wsum f (contributing data) / totalW (contributing data) := by
    intro f hf
    obtain ⟨hs0, hs1⟩ := wsum_bounds f (contributing data) hf (fun e he => (hwC e he).le)
    exact clampStat_eq_self (div_nonneg hs0 hWpos.le)
      ((div_le_iff₀ hWpos).mpr (by linarith))
  have hCdef : (fetchedSeasons data).filter (fun e => decide (0 < e.1.played)) =
      contributing data := rfl
  simp only [analyzeTeamStatisticsData, statsFold_foldl, hCdef, zeroStats, zero_add]
  rw [if_neg hWpos.ne']
  simp only [StatisticalAnalysis.mk.injEq]
  exact ⟨hquot _ hHA, trivial, hquot _ hCS, hquot _ hSC, hquot _ hDS, hquot _ hAS⟩

/-- A valid contributing season record: 10 played, home split 3/1/1,
4 clean sheets, 2 failed-to-score, 15 for, 10 against. -/
def statGood : TeamStatistics :=
  { team_id := 1, season := 2024, played := 10, wins := 5, draws := 2, losses := 3,
    goals_for := 15, goals_against := 10, goal_difference := 5, points := 17,
    home_wins := 3, home_draws := 1, home_losses := 1,
    away_wins := 2, away_draws := 1, away_losses := 2,
    clean_sheets := 4, failed_to_score := 2 }

/-- A one-season fetch list at the configured current-season weight 0.5. -/
def dataGood : List SeasonFetch := [(Except.ok (some statGood), 1 / 2)]

/-- C6 witness: the weight-normalized-sum theorem applied at the concrete
one-contributing-season input `dataGood`. -/
theorem analyzeTeamStatistics_weight_normalized_witness :
    (contributing dataGood ≠ [] ∧
     (∀ p ∈ dataGood, 0 < p.2) ∧
     (∀ e ∈ contributing dataGood,
       0 ≤ e.1.home_wins ∧ 0 ≤ e.1.home_draws ∧ 0 ≤ e.1.home_losses ∧
       0 < e.1.home_wins + e.1.home_draws + e.1.home_losses ∧
       0 ≤ e.1.clean_sheets ∧ e.1.clean_sheets ≤ e.1.played ∧
       0 ≤ e.1.failed_to_score ∧ e.1.failed_to_score ≤ e.1.played ∧
       0 ≤ e.1.goals_for ∧ 0 ≤ e.1.goals_against)) ∧
    analyzeTeamStatisticsData dataGood =
      { homeAdvantage :=
          wsum seasonHomeAdvantage (contributing dataGood) / totalW (contributing dataGood)
        goalDifferential :=
          wsum (fun s => (s.goal_difference : ℚ)) (contributing dataGood) /
            totalW (contributing dataGood)
        cleanSheetRatio :=
          wsum seasonCleanSheetRatio (contributing dataGood) / totalW (contributing dataGood)
        scoringConsistency :=
          wsum seasonScoringConsistency (contributing dataGood) / totalW (contributing dataGood)
        defensiveStrength :=
          wsum seasonDefensiveStrength (contributing dataGood) / totalW (contributing dataGood)
        attackingStrength :=
          wsum seasonAttackingStrength (contributing dataGood) / totalW (contributing dataGood) } := by
  have hC : contributing dataGood = [(statGood, 1 / 2)] := rfl
  have hne : contributing dataGood ≠ [] := by
    rw [hC]
    exact List.cons_ne_nil _ _
  have hw : ∀ p ∈ dataGood, 0 < p.2 := by
    intro p hp
    rcases List.mem_cons.mp hp with rfl | hp2
    · norm_num
    · simp at hp2
  have hvalid : ∀ e ∈ contributing dataGood,
      0 ≤ e.1.home_wins ∧ 0 ≤ e.1.home_draws ∧ 0 ≤ e.1.home_losses ∧
      0 < e.1.home_wins + e.1.home_draws + e.1.home_losses ∧
      0 ≤ e.1.clean_sheets ∧ e.1.clean_sheets ≤ e.1.played ∧
      0 ≤ e.1.failed_to_score ∧ e.1.failed_to_score ≤ e.1.played ∧
      0 ≤ e.1.goals_for ∧ 0 ≤ e.1.goals_against := by
    intro e he
    rw [hC] at he
    rcases List.mem_cons.mp he with rfl | he2
    · norm_num [statGood]
    · simp at he2
  exact ⟨⟨hne, hw, hvalid⟩, analyzeTeamStatistics_weight_normalized dataGood hne hw hvalid⟩

/-! C8. -/

/-- The points accumulation loop of `analyzeHeadToHead` equals the sum of
per-match points. -/
lemma h2h_foldl_eq_sum (team1Id : ℤ) (l : List Fixture) :
    ∀ init : ℤ,
      l.foldl (fun acc m => acc + h2hMatchPoints team1Id m) init =
        init + (l.map (h2hMatchPoints team1Id)).sum := by
  induction l with
  | nil => intro init; simp
  | cons m t ih =>
    intro init
    simp only [List.foldl_cons, List.map_cons, List.sum_cons, ih]
    ring

/-- Each match awards team 1 between 0 and 3 points. -/
lemma h2hMatchPoints_bounds (team1Id : ℤ) (m : Fixture) :
    0 ≤ h2hMatchPoints team1Id m ∧ h2hMatchPoints team1Id m ≤ 3 := by
  unfold h2hMatchPoints
  dsimp
  split_ifs <;> omega

/-- The summed points over a match list lie between 0 and `3 × length`. -/
lemma h2h_sum_bounds (team1Id : ℤ) (l : List Fixture) :
    0 ≤ (l.map (h2hMatchPoints team1Id)).sum ∧
    (l.map (h2hMatchPoints team1Id)).sum ≤ 3 * (l.length : ℤ) := by
  induction l with
  | nil => simp
  | cons m t ih =>
    obtain ⟨h1, h2⟩ := ih
    obtain ⟨h3, h4⟩ := h2hMatchPoints_bounds team1Id m
    simp only [List.map_cons, List.sum_cons, List.length_cons]
    constructor
    · linarith
    · push_cast
      linarith

/-- C8: on the database head-to-head view (completed meetings of the two
teams, at most the last 10), `analyzeHeadToHead` returns the neutral 50
for an empty history and otherwise
`pointsEarned / (matchCount × 3) × 100`, where each match awards team 1
three points for a win, one for a draw, zero for a loss, role-normalized
by which team was home; the result always lies in `[0, 100]`. -/
theorem analyzeHeadToHead_spec (team1Id team2Id : ℤ) (db : List Fixture) :
    (getHeadToHeadRecords team1Id team2Id 10 db).length ≤ 10 ∧
    (∀ f ∈ getHeadToHeadRecords team1Id team2Id 10 db,
      isCompleted f = true ∧ isH2H team1Id team2Id f = true) ∧
    analyzeHeadToHead team1Id (Except.ok (getHeadToHeadRecords team1Id team2Id 10 db)) =
      (if getHeadToHeadRecords team1Id team2Id 10 db = [] then 50
       else ((((getHeadToHeadRecords team1Id team2Id 10 db).map
           (h2hMatchPoints team1Id)).sum : ℚ) /
         (((getHeadToHeadRecords team1Id team2Id 10 db).length : ℚ) * 3)) * 100) ∧
    0 ≤ analyzeHeadToHead team1Id
        (Except.ok (getHeadToHeadRecords team1Id team2Id 10 db)) ∧
    analyzeHeadToHead team1Id
        (Except.ok (getHeadToHeadRecords team1Id team2Id 10 db)) ≤ 100 := by
  set l := getHeadToHeadRecords team1Id team2Id 10 db with hl
  have hlen : l.length ≤ 10 := by
    rw [hl]
    unfold getHeadToHeadRecords
    exact List.length_take_le _ _
  have hmem : ∀ f ∈ l, isCompleted f = true ∧ isH2H team1Id team2Id f = true := by
    intro f hf
    rw [hl] at hf
    unfold getHeadToHeadRecords at hf
    have hf2 := List.mem_mergeSort.mp (List.mem_of_mem_take hf)
    have hf3 := List.of_mem_filter hf2
    rw [Bool.and_eq_true] at hf3
    exact ⟨hf3.2, hf3.1⟩
  have heval : analyzeHeadToHead team1Id (Except.ok l) =
      (if l = [] then 50
       else (((l.map (h2hMatchPoints team1Id)).sum : ℚ) / ((l.length : ℚ) * 3)) * 100) := by
    rcases eq_or_ne l [] with he | hne
    · rw [he]
      simp [analyzeHeadToHead]
    · have hlen0 : ¬l.length = 0 := by simpa [List.length_eq_zero] using hne
      simp only [analyzeHeadToHead]
      rw [if_neg hlen0, if_neg hne, h2h_foldl_eq_sum, zero_add]
  have hrange : 0 ≤ analyzeHeadToHead team1Id (Except.ok l) ∧
      analyzeHeadToHead team1Id (Except.ok l) ≤ 100 := by
    rw [heval]
    rcases eq_or_ne l [] with he | hne
    · rw [if_pos he]
      norm_num
    · rw [if_neg hne]
      obtain ⟨hs0, hs1⟩ := h2h_sum_bounds team1Id l
      have hlpos : 0 < l.length := List.length_pos.mpr hne
      have hlq : (0 : ℚ) < (l.length : ℚ) := by exact_mod_cast hlpos
      refine ratioScore_bounds (by exact_mod_cast hs0) ?_ (by linarith)
      have : ((l.map (h2hMatchPoints team1Id)).sum : ℚ) ≤ 3 * (l.length : ℚ) := by
        exact_mod_cast hs1
      linarith
  exact ⟨hlen, hmem, heval, hrange.1, hrange.2⟩

/-! C4. -/

/-- The maximum of the three tie-break probabilities is at least the 0.1
draw floor, whatever the sigmoid values are. -/
lemma maxProbOf_ge (sig : ℚ → ℚ) (context : MatchContext) :
    1 / 10 ≤ maxProbOf sig context := by
  unfold maxProbOf
  rw [calculateMLProbability_eval]
  dsimp only
  exact (le_max_left _ _).trans ((le_max_left _ _).trans (le_max_right _ _))

/-- The confidence produced by the scoring body is always in `[30, 95]`. -/
lemma scoreMatch_confidence_range (sig : ℚ → ℚ) (context : MatchContext)
    (fetched : Except Unit (List Fixture)) :
    30 ≤ (scoreMatch sig context fetched).confidence ∧
    (scoreMatch sig context fetched).confidence ≤ 95 := by
  unfold scoreMatch
  dsimp only
  split_ifs with h1 h2
  · exact roundJS_bounds (by push_cast; exact le_min (by norm_num) (by linarith))
      (by push_cast; exact min_le_left _ _)
  · have habs : 10 < |scoreDiffOf context fetched| := by
      rw [abs_of_neg (by linarith : scoreDiffOf context fetched < 0)]
      linarith
    exact roundJS_bounds (by push_cast; exact le_min (by norm_num) (by linarith))
      (by push_cast; exact min_le_left _ _)
  · have hm := maxProbOf_ge sig context
    exact roundJS_bounds (by push_cast; exact le_min (by norm_num) (by linarith))
      (by push_cast; exact (min_le_left _ _).trans (by norm_num))

/-- C4: the confidence `predictMatch` returns is always in `[30, 95]` and
the outcome is one of the three enum values; on the scoring path, a score
difference above 10 gives HOME_WIN at (the rounding of)
`min(95, 60 + diff/2)`, below -10 gives AWAY_WIN at
`min(95, 60 + |diff|/2)`, and the close band hands the outcome to the
probability tie-break with confidence `min(75, 45 + maxProb × 30)`. -/
theorem predictMatch_confidence_outcome_spec (sig : ℚ → ℚ) (env : PredictEnv)
    (context : MatchContext) (fetched : Except Unit (List Fixture)) :
    (30 ≤ (predictMatch sig env).confidence ∧ (predictMatch sig env).confidence ≤ 95) ∧
    ((predictMatch sig env).prediction = Outcome.HOME_WIN ∨
     (predictMatch sig env).prediction = Outcome.DRAW ∨
     (predictMatch sig env).prediction = Outcome.AWAY_WIN) ∧
    (10 < scoreDiffOf context fetched →
      (scoreMatch sig context fetched).prediction = Outcome.HOME_WIN ∧
      (scoreMatch sig context fetched).confidence =
        roundJS (min 95 (60 + scoreDiffOf context fetched / 2))) ∧
    (scoreDiffOf context fetched < -10 →
      (scoreMatch sig context fetched).prediction = Outcome.AWAY_WIN ∧
      (scoreMatch sig context fetched).confidence =
        roundJS (min 95 (60 + |scoreDiffOf context fetched| / 2))) ∧
    (-10 ≤ scoreDiffOf context fetched → scoreDiffOf context fetched ≤ 10 →
      (scoreMatch sig context fetched).prediction = tieBreakOutcome sig context ∧
      (scoreMatch sig context fetched).confidence =
        roundJS (min 75 (45 + maxProbOf sig context * 30))) := by
  refine ⟨?_, ?_, ?_, ?_, ?_⟩
  · unfold predictMatch
    cases hctx : generateMatchContext env with
    | error e => norm_num [fallbackResult]
    | ok c => exact scoreMatch_confidence_range sig c env.h2hForAnalysis
  · cases (predictMatch sig env).prediction
    · exact Or.inl rfl
    · exact Or.inr (Or.inl rfl)
    · exact Or.inr (Or.inr rfl)
  · intro h
    simp only [scoreMatch]
    rw [if_pos h]
    exact ⟨rfl, rfl⟩
  · intro h
    simp only [scoreMatch]
    rw [if_neg (by linarith : ¬10 < scoreDiffOf context fetched), if_pos h]
    exact ⟨rfl, rfl⟩
  · intro h1 h2
    simp only [scoreMatch]
    rw [if_neg (by linarith : ¬10 < scoreDiffOf context fetched),
      if_neg (by linarith : ¬scoreDiffOf context fetched < -10)]
    exact ⟨rfl, rfl⟩

/-- A not-yet-started fixture between teams 1 and 2. -/
def fixtureAB : Fixture :=
  { id := 100, date := 0, status := { short := "NS" },
    teams := { home := { id := 1, name := "A" }, away := { id := 2, name := "B" } },
    goals := { home := none, away := none } }

/-- Perfect recent form (5 wins out of 5). -/
def formHundred : FormAnalysis :=
  { wins := 5, draws := 0, losses := 0, goalsFor := 15, goalsAgainst := 2,
    points := 15, formScore := 100 }

/-- Winless recent form (0 points out of 5). -/
def formZero : FormAnalysis :=
  { wins := 0, draws := 0, losses := 5, goalsFor := 2, goalsAgainst := 15,
    points := 0, formScore := 0 }

/-- A context with a dominant home side: the score difference lands well
above the +10 band. -/
def ctxC4 : MatchContext :=
  { homeTeam := { id := 1, name := "A" }
    awayTeam := { id := 2, name := "B" }
    fixture := fixtureAB
    homeForm := formHundred
    awayForm := formZero
    homeStats := neutralStats
    awayStats := neutralStats
    headToHeadRecord := []
    homeAdvantage := 15 }

/-- An environment in which every lookup resolves (to empty histories). -/
def envAllOk : PredictEnv :=
  { fixture := fixtureAB
    homeRecent := Except.ok []
    awayRecent := Except.ok []
    homeSeasonData := Except.ok []
    awaySeasonData := Except.ok []
    h2hForContext := Except.ok []
    h2hForAnalysis := Except.ok [] }

/-- C4 witness: the spec theorem applied at a concrete dominant-home
context, discharging the `diff > 10` hypothesis there, together with its
unconditional confidence bounds at a concrete environment. -/
theorem predictMatch_confidence_outcome_spec_witness :
    (10 : ℚ) < scoreDiffOf ctxC4 (Except.ok []) ∧
    (scoreMatch sigHalf ctxC4 (Except.ok [])).prediction = Outcome.HOME_WIN ∧
    30 ≤ (predictMatch sigHalf envAllOk).confidence ∧
    (predictMatch sigHalf envAllOk).confidence ≤ 95 := by
  have hd : (10 : ℚ) < scoreDiffOf ctxC4 (Except.ok []) := by
    norm_num [scoreDiffOf, homeScoreOf, awayScoreOf, homeScoreCalc, awayScoreCalc,
      homeFormScoreOf, awayFormScoreOf, formDifferenceOf, h2hScoreOf, analyzeHeadToHead,
      ctxC4, formHundred, formZero, neutralStats, FORM_WEIGHT, STATS_WEIGHT,
      HOME_ADVANTAGE_FACTOR, max_def, min_def]
  have hspec := predictMatch_confidence_outcome_spec sigHalf envAllOk ctxC4 (Except.ok [])
  exact ⟨hd, (hspec.2.2.1 hd).1, hspec.1.1, hspec.1.2⟩

/-! C1. -/

/-- An environment in which the home recent-form lookup rejects while
everything else resolves: the failure is absorbed inside
`analyzeTeamForm`, not by the top-level fallback. -/
def envC1 : PredictEnv :=
  { fixture := fixtureAB
    homeRecent := Except.error ()
    awayRecent := Except.ok []
    homeSeasonData := Except.ok []
    awaySeasonData := Except.ok []
    h2hForContext := Except.ok []
    h2hForAnalysis := Except.ok [] }

/-- An environment in which the head-to-head fetch of the context build
rejects — the one awaited call without its own `catch`. -/
def envC1err : PredictEnv :=
  { fixture := fixtureAB
    homeRecent := Except.ok []
    awayRecent := Except.ok []
    homeSeasonData := Except.ok []
    awaySeasonData := Except.ok []
    h2hForContext := Except.error ()
    h2hForAnalysis := Except.ok [] }

/-- C1 counterexample: with a failed home recent-form lookup (an upstream
analysis failure), `predictMatch` does NOT return the DRAW/30 fallback —
the failure is absorbed to the neutral form score 50 inside
`analyzeTeamForm`, the away side scores 0 from its empty history, and the
engine predicts HOME_WIN at confidence 81. -/
theorem predictMatch_absorbed_failure_counterexample :
    envC1.homeRecent = Except.error () ∧
    (predictMatch sigHalf envC1).prediction = Outcome.HOME_WIN ∧
    (predictMatch sigHalf envC1).confidence = 81 ∧
    predictMatch sigHalf envC1 ≠ fallbackResult := by
  have heval : (predictMatch sigHalf envC1).prediction = Outcome.HOME_WIN ∧
      (predictMatch sigHalf envC1).confidence = 81 := by
    norm_num [predictMatch, envC1, generateMatchContext, scoreMatch, scoreDiffOf,
      homeScoreOf, awayScoreOf, homeScoreCalc, awayScoreCalc, homeFormScoreOf,
      awayFormScoreOf, formDifferenceOf, h2hScoreOf, analyzeHeadToHead,
      analyzeTeamForm, analyzeTeamStatistics, analyzeTeamStatisticsData,
      fetchedSeasons, neutralForm, neutralStats, zeroStats, fixtureAB,
      HOME_ADVANTAGE_FACTOR, FORM_WEIGHT, STATS_WEIGHT, roundJS, goalDiffFactorOf,
      max_def, min_def]
  refine ⟨rfl, heval.1, heval.2, ?_⟩
  intro hc
  have := heval.1
  rw [hc] at this
  simp [fallbackResult] at this

/-- C1 amended: `predictMatch` is total by construction, and it returns
exactly the DRAW / 30 / (50, 50, 50, 0, 50) fallback precisely when a
failure reaches its own top-level `try` — that is, when the uncaught
head-to-head fetch of the context build rejects.  Failures inside the
form, statistics and head-to-head analyzers are absorbed to per-analyzer
neutral values earlier and do not trigger this fallback. -/
theorem predictMatch_fallback_on_toplevel_failure (sig : ℚ → ℚ) (env : PredictEnv)
    (h : env.h2hForContext = Except.error ()) :
    predictMatch sig env = fallbackResult := by
  unfold predictMatch generateMatchContext
  rw [h]

/-- C1 witness: the fallback theorem at a concrete environment whose
context-build head-to-head fetch rejects. -/
theorem predictMatch_fallback_on_toplevel_failure_witness :
    envC1err.h2hForContext = Except.error () ∧
    predictMatch sigHalf envC1err = fallbackResult :=
  ⟨rfl, predictMatch_fallback_on_toplevel_failure sigHalf envC1err rfl⟩

/-- C8 witness: the head-to-head theorem applied at teams 1 and 2 over an
empty fixture store. -/
theorem analyzeHeadToHead_spec_witness :
    0 ≤ analyzeHeadToHead 1 (Except.ok (getHeadToHeadRecords 1 2 10 [])) ∧
    analyzeHeadToHead 1 (Except.ok (getHeadToHeadRecords 1 2 10 [])) ≤ 100 :=
  ⟨(analyzeHeadToHead_spec 1 2 []).2.2.2.1, (analyzeHeadToHead_spec 1 2 []).2.2.2.2⟩
